import Mathlib

/-!
Formal model of the `@periodic/titanium` fixed-window rate limiter
(class `RateLimiter` in the source; `FixedWindowLimiter` in the design
document).

The limiter talks to a Redis-like counter store through a handful of
primitives: conditional create with a TTL (`SET key value EX w NX`),
atomic increment (`INCR`), TTL query (`TTL`), read (`GET`) and delete
(`DEL`).  The store is modelled as a keyspace `String → Option StoreEntry`
together with the two liveness flags the client object exposes (`isOpen`,
`isReady`).  Time is explicit, in milliseconds (`Date.now()` units), and
key expiry is evaluated lazily at each operation, the way Redis evaluates
it.  Every limiter operation is then a pure function of the store state
and the time at which the call runs; a call's three store round-trips are
modelled as happening at the single instant the call was issued.
-/

namespace PeriodicTitanium

/-- One key's state in the counter store: the stored integer value and the
absolute expiry instant, `none` when the key has no expiry (a key created
by a bare `INCR` persists without a TTL). -/
structure StoreEntry where
  value : Nat
  expiresAt : Option Nat
  deriving Repr, DecidableEq

/-- The Redis-like counter store: the client liveness flags (`isOpen`,
`isReady`) and the keyspace. -/
structure Store where
  isOpen : Bool
  isReady : Bool
  keyspace : String → Option StoreEntry

/-- Overwrite one key of the keyspace. -/
def Store.setEntry (s : Store) (key : String) (e : StoreEntry) : Store :=
  { s with keyspace := fun k => if k = key then some e else s.keyspace k }

/-- Remove one key from the keyspace. -/
def Store.delEntry (s : Store) (key : String) : Store :=
  { s with keyspace := fun k => if k = key then none else s.keyspace k }

/-- Look a key up at time `t`, treating an entry whose expiry has passed as
absent (Redis's lazy expiry: a key is gone as soon as `t` reaches its
expiry instant). -/
def Store.lookupLive (s : Store) (t : Nat) (key : String) : Option StoreEntry :=
  match s.keyspace key with
  | none => none
  | some e =>
    match e.expiresAt with
    | none => some e
    | some exp => if t < exp then some e else none

/-- `SET key v EX exSeconds NX` at time `t`: create the key with value `v`
and a TTL of `exSeconds` seconds only if no live key exists; returns
whether the set happened (Redis replies `OK` vs `null`). -/
def Store.setNX (s : Store) (t : Nat) (key : String) (v : Nat) (exSeconds : Nat) :
    Store × Bool :=
  match s.lookupLive t key with
  | some _ => (s, false)
  | none => (s.setEntry key ⟨v, some (t + exSeconds * 1000)⟩, true)

/-- `INCR key` at time `t`: increment a live key keeping its expiry, or
create the key with value 1 and no expiry when it is absent; returns the
post-increment value. -/
def Store.incr (s : Store) (t : Nat) (key : String) : Store × Nat :=
  match s.lookupLive t key with
  | some e => (s.setEntry key ⟨e.value + 1, e.expiresAt⟩, e.value + 1)
  | none => (s.setEntry key ⟨1, none⟩, 1)

/-- `TTL key` at time `t`: `-2` when the key is absent (or expired), `-1`
when it exists without an expiry, otherwise the remaining time in seconds.
Redis reports the remaining milliseconds rounded to the nearest second,
`(pttl + 500) / 1000`, so a live key with under half a second left is
reported as `0`. -/
def Store.ttl (s : Store) (t : Nat) (key : String) : Int :=
  match s.lookupLive t key with
  | none => -2
  | some e =>
    match e.expiresAt with
    | none => -1
    | some exp => ((exp - t + 500) / 1000 : Nat)

/-- `GET key` at time `t`: the stored value of a live key.  The store only
ever holds decimal integer strings here, so the value is modelled as a
`Nat`; a `none` result is Redis's `null` reply (the only falsy reply the
source's `!currentValue` test can see, since a stored `"0"` is truthy). -/
def Store.get (s : Store) (t : Nat) (key : String) : Option Nat :=
  (s.lookupLive t key).map StoreEntry.value

/-- `DEL key` at time `t`: remove a live key; returns the number of keys
removed (0 or 1). -/
def Store.del (s : Store) (t : Nat) (key : String) : Store × Nat :=
  match s.lookupLive t key with
  | some _ => (s.delEntry key, 1)
  | none => (s, 0)

/-- JavaScript's `String.prototype.trim`: strip whitespace from both ends
of the string. -/
def jsTrim (s : String) : String :=
  String.mk (((s.toList.dropWhile Char.isWhitespace).reverse.dropWhile
    Char.isWhitespace).reverse)

/-- `RateLimiter.isRedisAvailable` (source lines 303-305): the client must
report itself open and ready. -/
def isRedisAvailable (s : Store) : Bool :=
  s.isOpen && s.isReady

/-- The `Algorithm` union type of the source: only `"fixed-window"`
exists. -/
inductive Algorithm where
  | fixedWindow
  deriving Repr, DecidableEq

/-- The `RateLimitResult` record returned by a `limit` call. -/
structure RateLimitResult where
  allowed : Bool
  limit : Int
  remaining : Int
  reset : Nat
  ttl : Int
  deriving Repr, DecidableEq

/-- The `RateLimiterConfig` options record as it reaches `validateConfig`
at run time: `redisPresent` stands for `config.redis` being a (non-null)
client object, numbers are modelled as integers, and the key prefix may be
absent (`undefined`) even though the TypeScript type declares it, which is
exactly what the falsiness checks of `validateConfig` guard against.  The
source names the prefix field `keyPrefix`; the design document calls it
`namespace`. -/
structure RateLimiterConfig where
  redisPresent : Bool
  limit : Int
  window : Int
  keyNamespace : Option String
  algorithm : Option Algorithm
  deriving Repr, DecidableEq

/-- `RateLimiter.validateConfig` (source lines 264-280), with the source's
error messages. -/
def validateConfig (config : RateLimiterConfig) : Except String Unit :=
  if !config.redisPresent then .error "Redis client is required"
  else if config.limit ≤ 0 then .error "Limit must be a positive number"
  else if config.window ≤ 0 then .error "Window must be a positive number (in seconds)"
  else if jsTrim (config.keyNamespace.getD "") = "" then .error "Key prefix is required"
  else .ok ()

/-- The constructed `RateLimiter`: the fields the constructor copies out of
a validated config (the redis handle and logger are modelled externally).
`keyNamespace` is the source's `keyPrefix`. -/
structure RateLimiter where
  requestLimit : Int
  window : Int
  keyNamespace : String
  algorithm : Algorithm
  deriving Repr, DecidableEq

/-- The `RateLimiter` constructor (source lines 250-259): validate, then
copy the config fields, defaulting the algorithm to fixed-window. -/
def RateLimiter.create (config : RateLimiterConfig) : Except String RateLimiter :=
  match validateConfig config with
  | .error e => .error e
  | .ok _ =>
    .ok { requestLimit := config.limit
          window := config.window
          keyNamespace := config.keyNamespace.getD ""
          algorithm := config.algorithm.getD .fixedWindow }

/-- `RateLimiter.buildKey` (source lines 296-298):
`` `ratelimit:${this.keyPrefix}:${identifier}` ``. -/
def RateLimiter.buildKey (rl : RateLimiter) (identifier : String) : String :=
  "ratelimit:" ++ rl.keyNamespace ++ ":" ++ identifier

/-- The pure tail of `fixedWindowLimit` (source lines 354-369): given the
wall clock read at entry, the post-increment counter value and the TTL the
store reported, build the `RateLimitResult`.  `Math.ceil(resetTime / 1000)`
on a natural number of milliseconds is `(resetTime + 999) / 1000`. -/
def RateLimiter.windowResult (rl : RateLimiter) (nowMs : Nat) (currentCount : Nat)
    (ttl : Int) : RateLimitResult :=
  let resetTime : Nat :=
    if 0 < ttl then nowMs + ttl.toNat * 1000 else nowMs + rl.window.toNat * 1000
  { allowed := decide ((currentCount : Int) ≤ rl.requestLimit)
    limit := rl.requestLimit
    remaining := max 0 (rl.requestLimit - (currentCount : Int))
    reset := (resetTime + 999) / 1000
    ttl := if 0 < ttl then ttl else rl.window }

/-- `RateLimiter.fixedWindowLimit` (source lines 338-370): read the clock,
`SET key "0" EX window NX`, `INCR key`, `TTL key`, then assemble the
result.  The three round-trips all run at the instant `t` the call was
issued. -/
def RateLimiter.fixedWindowLimit (rl : RateLimiter) (s : Store) (t : Nat)
    (key : String) : RateLimitResult × Store :=
  let s1 := (s.setNX t key 0 rl.window.toNat).1
  let r2 := s1.incr t key
  let currentCount := r2.2
  let s2 := r2.1
  let ttl := s2.ttl t key
  (rl.windowResult t currentCount ttl, s2)

/-- The post-increment counter value a `fixedWindowLimit` run observes
(the local `currentCount` of source line 349). -/
def RateLimiter.observedCount (rl : RateLimiter) (s : Store) (t : Nat)
    (key : String) : Nat :=
  (((s.setNX t key 0 rl.window.toNat).1).incr t key).2

/-- The TTL value the store reports during a `fixedWindowLimit` run (the
local `ttl` of source line 352, queried after the increment). -/
def RateLimiter.ttlReport (rl : RateLimiter) (s : Store) (t : Nat)
    (key : String) : Int :=
  ((((s.setNX t key 0 rl.window.toNat).1).incr t key).1).ttl t key

/-- `RateLimiter.limit` (source lines 316-332).  The source's guard
`!identifier || identifier.trim() === ""` collapses to the trim test,
since the only falsy string is `""`, whose trim is `""`. -/
def RateLimiter.limit (rl : RateLimiter) (s : Store) (t : Nat)
    (identifier : String) : Except String (RateLimitResult × Store) :=
  if jsTrim identifier = "" then .error "Identifier cannot be empty"
  else if !isRedisAvailable s then .error "Redis client is not available"
  else
    match rl.algorithm with
    | .fixedWindow => .ok (rl.fixedWindowLimit s t (rl.buildKey identifier))

/-- `RateLimiter.reset` (source lines 379-394): delete the identifier's
key; the result is `result > 0` on the `DEL` reply. -/
def RateLimiter.reset (rl : RateLimiter) (s : Store) (t : Nat)
    (identifier : String) : Except String (Bool × Store) :=
  if jsTrim identifier = "" then .error "Identifier cannot be empty"
  else if !isRedisAvailable s then .error "Redis client is not available"
  else
    let r := s.del t (rl.buildKey identifier)
    .ok (decide (0 < r.2), r.1)

/-- The pure tail of `getStatus` (source lines 422-431): the source coerces
a falsy TTL reply with `(results?.[1] as number) || -1`, so a reported `0`
becomes `-1`, then returns `null` when the value is absent or the coerced
TTL is negative, and otherwise the current count together with the coerced
TTL. -/
def statusView (currentValue : Option Nat) (ttl0 : Int) : Option (Nat × Int) :=
  match currentValue with
  | none => none
  | some v =>
    let ttl := if ttl0 = 0 then -1 else ttl0
    if ttl < 0 then none else some (v, ttl)

/-- `RateLimiter.getStatus` (source lines 402-432): a pipelined
`GET` + `TTL` read at one instant, post-processed by `statusView`.  The
unchanged store is returned alongside the result to record that the
operation mutates nothing. -/
def RateLimiter.getStatus (rl : RateLimiter) (s : Store) (t : Nat)
    (identifier : String) : Except String (Option (Nat × Int) × Store) :=
  if jsTrim identifier = "" then .error "Identifier cannot be empty"
  else if !isRedisAvailable s then .error "Redis client is not available"
  else
    let key := rl.buildKey identifier
    .ok (statusView (s.get t key) (s.ttl t key), s)

/-- A sequence of back-to-back `fixedWindowLimit` calls on one key, each at
its own instant, threading the store; collects each call's observed
post-increment count together with its result. -/
def RateLimiter.runLimits (rl : RateLimiter) (key : String) :
    Store → List Nat → List (Nat × RateLimitResult) × Store
  | s, [] => ([], s)
  | s, t :: ts =>
    let c := rl.observedCount s t key
    let r := rl.fixedWindowLimit s t key
    let rest := rl.runLimits key r.2 ts
    ((c, r.1) :: rest.1, rest.2)

/-! ### Basic store lemmas -/

theorem Store.keyspace_setEntry (s : Store) (key : String) (e : StoreEntry) (k : String) :
    (s.setEntry key e).keyspace k = if k = key then some e else s.keyspace k := rfl

theorem Store.keyspace_delEntry (s : Store) (key : String) (k : String) :
    (s.delEntry key).keyspace k = if k = key then none else s.keyspace k := rfl

theorem Store.lookupLive_of_keyspace_none (s : Store) (t : Nat) (key : String)
    (h : s.keyspace key = none) : s.lookupLive t key = none := by
  simp [Store.lookupLive, h]

theorem Store.lookupLive_of_live (s : Store) (t : Nat) (key : String) (v : Nat)
    (exp : Nat) (h : s.keyspace key = some ⟨v, some exp⟩) (ht : t < exp) :
    s.lookupLive t key = some ⟨v, some exp⟩ := by
  simp [Store.lookupLive, h, ht]

theorem Store.lookupLive_none_mono (s : Store) (t t' : Nat) (key : String)
    (h : s.lookupLive t key = none) (htt : t ≤ t') : s.lookupLive t' key = none := by
  rcases hk : s.keyspace key with _ | e
  · simp [Store.lookupLive, hk]
  · rcases he : e.expiresAt with _ | exp
    · exfalso
      simp [Store.lookupLive, hk, he] at h
    · simp only [Store.lookupLive, hk, he] at h ⊢
      by_cases hlt : t < exp
      · rw [if_pos hlt] at h
        exact absurd h (by simp)
      · rw [if_neg (by omega)]

theorem Store.setNX_fst_keyspace (s : Store) (t : Nat) (key : String) (v ex : Nat)
    (k : String) (hk : k ≠ key) : ((s.setNX t key v ex).1).keyspace k = s.keyspace k := by
  unfold Store.setNX
  match h : s.lookupLive t key with
  | some _ => rfl
  | none => simp [Store.setEntry, hk]

theorem Store.incr_fst_keyspace (s : Store) (t : Nat) (key : String)
    (k : String) (hk : k ≠ key) : ((s.incr t key).1).keyspace k = s.keyspace k := by
  unfold Store.incr
  match h : s.lookupLive t key with
  | some _ => simp [Store.setEntry, hk]
  | none => simp [Store.setEntry, hk]

theorem Store.del_fst_keyspace (s : Store) (t : Nat) (key : String)
    (k : String) (hk : k ≠ key) : ((s.del t key).1).keyspace k = s.keyspace k := by
  unfold Store.del
  match h : s.lookupLive t key with
  | some _ => simp [Store.delEntry, hk]
  | none => rfl

/-! ### Unfolding lemmas for one `fixedWindowLimit` call -/

theorem RateLimiter.windowResult_allowed (rl : RateLimiter) (t : Nat) (c : Nat)
    (ttl : Int) :
    (rl.windowResult t c ttl).allowed = decide ((c : Int) ≤ rl.requestLimit) := rfl

theorem RateLimiter.windowResult_limit (rl : RateLimiter) (t : Nat) (c : Nat)
    (ttl : Int) : (rl.windowResult t c ttl).limit = rl.requestLimit := rfl

theorem RateLimiter.windowResult_remaining (rl : RateLimiter) (t : Nat) (c : Nat)
    (ttl : Int) :
    (rl.windowResult t c ttl).remaining = max 0 (rl.requestLimit - (c : Int)) := rfl

theorem RateLimiter.windowResult_ttl (rl : RateLimiter) (t : Nat) (c : Nat)
    (ttl : Int) :
    (rl.windowResult t c ttl).ttl = if 0 < ttl then ttl else rl.window := rfl

theorem RateLimiter.windowResult_reset (rl : RateLimiter) (t : Nat) (c : Nat)
    (ttl : Int) :
    (rl.windowResult t c ttl).reset =
      ((if 0 < ttl then t + ttl.toNat * 1000 else t + rl.window.toNat * 1000) + 999) / 1000 :=
  rfl

/-- A `fixedWindowLimit` run decomposed into the source's locals: the result
is `windowResult` applied to the observed count and the reported TTL. -/
theorem RateLimiter.fixedWindowLimit_eq (rl : RateLimiter) (s : Store) (t : Nat)
    (key : String) :
    rl.fixedWindowLimit s t key =
      (rl.windowResult t (rl.observedCount s t key) (rl.ttlReport s t key),
       (((s.setNX t key 0 rl.window.toNat).1).incr t key).1) := rfl

/-- A call that finds no live counter: the window is created, the observed
count is 1, the store reports a TTL of exactly `window` seconds. -/
theorem RateLimiter.fixedWindowLimit_fresh (rl : RateLimiter) (s : Store) (t : Nat)
    (key : String) (h0 : s.lookupLive t key = none) (hw : 0 < rl.window) :
    rl.observedCount s t key = 1 ∧
    rl.ttlReport s t key = (rl.window.toNat : Int) ∧
    (rl.fixedWindowLimit s t key).1 = rl.windowResult t 1 (rl.window.toNat : Int) ∧
    ((rl.fixedWindowLimit s t key).2).keyspace key =
      some ⟨1, some (t + rl.window.toNat * 1000)⟩ := by
  have hwnat : 1 ≤ rl.window.toNat := by omega
  have hexp : t < t + rl.window.toNat * 1000 := by omega
  have hs1 : (s.setNX t key 0 rl.window.toNat).1 =
      s.setEntry key ⟨0, some (t + rl.window.toNat * 1000)⟩ := by
    unfold Store.setNX; rw [h0]
  have hlook1 : ((s.setNX t key 0 rl.window.toNat).1).lookupLive t key =
      some ⟨0, some (t + rl.window.toNat * 1000)⟩ := by
    rw [hs1]
    exact Store.lookupLive_of_live _ t key 0 _ (by simp [Store.keyspace_setEntry]) hexp
  have hincr : ((s.setNX t key 0 rl.window.toNat).1).incr t key =
      (((s.setNX t key 0 rl.window.toNat).1).setEntry key
        ⟨1, some (t + rl.window.toNat * 1000)⟩, 1) := by
    unfold Store.incr; rw [hlook1]
  have hkey2 : ((((s.setNX t key 0 rl.window.toNat).1).incr t key).1).keyspace key =
      some ⟨1, some (t + rl.window.toNat * 1000)⟩ := by
    rw [hincr]; simp [Store.keyspace_setEntry]
  have hcount : rl.observedCount s t key = 1 := by
    unfold RateLimiter.observedCount; rw [hincr]
  have httl : rl.ttlReport s t key = (rl.window.toNat : Int) := by
    unfold RateLimiter.ttlReport
    have hlook2 : ((((s.setNX t key 0 rl.window.toNat).1).incr t key).1).lookupLive t key =
        some ⟨1, some (t + rl.window.toNat * 1000)⟩ :=
      Store.lookupLive_of_live _ t key 1 _ hkey2 hexp
    unfold Store.ttl
    rw [hlook2]
    simp only
    congr 1
    omega
  refine ⟨hcount, httl, ?_, ?_⟩
  · rw [RateLimiter.fixedWindowLimit_eq, hcount, httl]
  · rw [RateLimiter.fixedWindowLimit_eq]
    exact hkey2

/-- A call that finds a live counter with an expiry: the count goes up by
one and the expiry instant is untouched. -/
theorem RateLimiter.fixedWindowLimit_live (rl : RateLimiter) (s : Store) (t : Nat)
    (key : String) (c : Nat) (exp : Nat)
    (h : s.keyspace key = some ⟨c, some exp⟩) (ht : t < exp) :
    rl.observedCount s t key = c + 1 ∧
    rl.ttlReport s t key = (((exp - t + 500) / 1000 : Nat) : Int) ∧
    (rl.fixedWindowLimit s t key).1 =
      rl.windowResult t (c + 1) (((exp - t + 500) / 1000 : Nat) : Int) ∧
    ((rl.fixedWindowLimit s t key).2).keyspace key = some ⟨c + 1, some exp⟩ := by
  have hlook : s.lookupLive t key = some ⟨c, some exp⟩ :=
    Store.lookupLive_of_live s t key c exp h ht
  have hs1 : (s.setNX t key 0 rl.window.toNat).1 = s := by
    unfold Store.setNX; rw [hlook]
  have hincr : ((s.setNX t key 0 rl.window.toNat).1).incr t key =
      (s.setEntry key ⟨c + 1, some exp⟩, c + 1) := by
    rw [hs1]; unfold Store.incr; rw [hlook]
  have hkey2 : ((((s.setNX t key 0 rl.window.toNat).1).incr t key).1).keyspace key =
      some ⟨c + 1, some exp⟩ := by
    rw [hincr]; simp [Store.keyspace_setEntry]
  have hcount : rl.observedCount s t key = c + 1 := by
    unfold RateLimiter.observedCount; rw [hincr]
  have httl : rl.ttlReport s t key = (((exp - t + 500) / 1000 : Nat) : Int) := by
    unfold RateLimiter.ttlReport
    have hlook2 : ((((s.setNX t key 0 rl.window.toNat).1).incr t key).1).lookupLive t key =
        some ⟨c + 1, some exp⟩ :=
      Store.lookupLive_of_live _ t key (c + 1) exp hkey2 ht
    unfold Store.ttl
    rw [hlook2]
  refine ⟨hcount, httl, ?_, ?_⟩
  · rw [RateLimiter.fixedWindowLimit_eq, hcount, httl]
  · rw [RateLimiter.fixedWindowLimit_eq]
    exact hkey2

/-- A `fixedWindowLimit` call never touches any key other than the one it
was given. -/
theorem RateLimiter.fixedWindowLimit_snd_keyspace (rl : RateLimiter) (s : Store) (t : Nat)
    (key k : String) (hk : k ≠ key) :
    ((rl.fixedWindowLimit s t key).2).keyspace k = s.keyspace k := by
  have h2 : ((rl.fixedWindowLimit s t key).2) =
      (((s.setNX t key 0 rl.window.toNat).1).incr t key).1 := rfl
  rw [h2, Store.incr_fst_keyspace _ _ _ _ hk, Store.setNX_fst_keyspace _ _ _ _ _ _ hk]

theorem RateLimiter.runLimits_nil (rl : RateLimiter) (key : String) (s : Store) :
    rl.runLimits key s [] = ([], s) := rfl

theorem RateLimiter.runLimits_cons (rl : RateLimiter) (key : String) (s : Store)
    (t : Nat) (ts : List Nat) :
    rl.runLimits key s (t :: ts) =
      ((rl.observedCount s t key, (rl.fixedWindowLimit s t key).1) ::
         (rl.runLimits key (rl.fixedWindowLimit s t key).2 ts).1,
       (rl.runLimits key (rl.fixedWindowLimit s t key).2 ts).2) := rfl

/-- Running a sequence of calls against a live counter of value `c` whose
expiry lies beyond every call instant: the observed counts are the
consecutive values `c+1, …, c+n`, each call's admission flag compares its
own count against the quota, and the counter ends at `c + n` with the same
expiry. -/
theorem RateLimiter.runLimits_live (rl : RateLimiter) (key : String) (ts : List Nat) :
    ∀ (s : Store) (c : Nat) (exp : Nat),
      s.keyspace key = some ⟨c, some exp⟩ → (∀ τ ∈ ts, τ < exp) →
      ((rl.runLimits key s ts).1.map Prod.fst = List.range' (c + 1) ts.length ∧
       (rl.runLimits key s ts).1.map (fun p => p.2.allowed) =
         (List.range' (c + 1) ts.length).map
           (fun m : Nat => decide ((m : Int) ≤ rl.requestLimit)) ∧
       ((rl.runLimits key s ts).2).keyspace key = some ⟨c + ts.length, some exp⟩) := by
  induction ts with
  | nil =>
    intro s c exp h _
    simp [RateLimiter.runLimits_nil, h]
  | cons t ts ih =>
    intro s c exp h hts
    have ht : t < exp := hts t (List.mem_cons_self t ts)
    obtain ⟨hc, -, hres, hkey⟩ := rl.fixedWindowLimit_live s t key c exp h ht
    obtain ⟨ih1, ih2, ih3⟩ := ih (rl.fixedWindowLimit s t key).2 (c + 1) exp hkey
      (fun τ hτ => hts τ (List.mem_cons_of_mem t hτ))
    refine ⟨?_, ?_, ?_⟩
    · rw [RateLimiter.runLimits_cons]
      simp only [List.map_cons, hc, ih1, List.length_cons, List.range'_succ]
    · rw [RateLimiter.runLimits_cons]
      simp only [List.map_cons, hres, RateLimiter.windowResult_allowed, ih2,
        List.length_cons, List.range'_succ]
    · rw [RateLimiter.runLimits_cons]
      simp only [List.length_cons]
      rw [show c + (ts.length + 1) = c + 1 + ts.length by omega]
      exact ih3

/-- Under the two per-call preconditions, `limit` is `fixedWindowLimit` on
the built key. -/
theorem RateLimiter.limit_ok (rl : RateLimiter) (s : Store) (t : Nat)
    (identifier : String) (h1 : jsTrim identifier ≠ "")
    (h2 : isRedisAvailable s = true) :
    rl.limit s t identifier = .ok (rl.fixedWindowLimit s t (rl.buildKey identifier)) := by
  cases halg : rl.algorithm
  simp only [RateLimiter.limit, if_neg h1, h2, Bool.not_true, Bool.false_eq_true,
    if_false, halg]

/-- Under the two per-call preconditions, `reset` is `DEL` on the built
key. -/
theorem RateLimiter.reset_ok (rl : RateLimiter) (s : Store) (t : Nat)
    (identifier : String) (h1 : jsTrim identifier ≠ "")
    (h2 : isRedisAvailable s = true) :
    rl.reset s t identifier =
      .ok (decide (0 < (s.del t (rl.buildKey identifier)).2),
           (s.del t (rl.buildKey identifier)).1) := by
  simp only [RateLimiter.reset, if_neg h1, h2, Bool.not_true, Bool.false_eq_true, if_false]

theorem isRedisAvailable_delEntry (s : Store) (k : String) :
    isRedisAvailable (s.delEntry k) = isRedisAvailable s := rfl

/-! ### Concrete configurations and stores used as test inputs -/

/-- A limiter with quota 2, a 60-second window and namespace `"test"`
(the spec's concrete-scenario shape). -/
def rlEx : RateLimiter :=
  { requestLimit := 2, window := 60, keyNamespace := "test", algorithm := .fixedWindow }

/-- An available store with an empty keyspace. -/
def emptyStore : Store :=
  { isOpen := true, isReady := true, keyspace := fun _ => none }

/-- A store whose client is not open: the liveness probe fails. -/
def downStore : Store :=
  { isOpen := false, isReady := true, keyspace := fun _ => none }

/-- An available store holding the counter for `"user-123"` with value 5
and no expiry (the state a bare `INCR` leaves behind when a key expires
between the conditional create and the increment, which the spec calls a
race with store-side expiry). -/
def noExpiryStore : Store :=
  { isOpen := true
    isReady := true
    keyspace := fun k =>
      if k = "ratelimit:test:user-123" then some ⟨5, none⟩ else none }

/-- An available store holding the counter for `"user-123"` with value 3
and 400 milliseconds left to live: the store's TTL query reports 0
seconds for it. -/
def shortTtlStore : Store :=
  { isOpen := true
    isReady := true
    keyspace := fun k =>
      if k = "ratelimit:test:user-123" then some ⟨3, some 1400⟩ else none }

/-- An available store holding the counter for `"user-123"` with value 2
and a full minute to live. -/
def liveStore : Store :=
  { isOpen := true
    isReady := true
    keyspace := fun k =>
      if k = "ratelimit:test:user-123" then some ⟨2, some 60000⟩ else none }

/-- A valid configuration. -/
def cfgEx : RateLimiterConfig :=
  { redisPresent := true, limit := 10, window := 60, keyNamespace := some "api"
    algorithm := none }

/-! ### The claims -/

/-- C1 counterexample: with namespace `"test"` and identifier `"user-123"`
the store key actually used is `"ratelimit:test:user-123"`, not
`"test:user-123"`, so the key is not the namespace followed by `":"`
followed by the identifier with no other prefix. -/
theorem c1_key_format_counterexample :
    rlEx.buildKey "user-123" ≠ rlEx.keyNamespace ++ ":" ++ "user-123" := by decide

/-- C1 (amended): for every identifier, the store key used by check
(limit), reset, and status is exactly the fixed literal `"ratelimit:"`
followed by the configured namespace, `":"`, and the identifier —
`buildKey` produces that string, `limit` and `reset` operate on that key
and leave every other key untouched, and `status` reads only that key. -/
theorem c1_key_format (rl : RateLimiter) (s : Store) (t : Nat) (identifier : String)
    (h1 : jsTrim identifier ≠ "") (h2 : isRedisAvailable s = true) :
    rl.buildKey identifier = "ratelimit:" ++ rl.keyNamespace ++ ":" ++ identifier ∧
    rl.limit s t identifier =
      .ok (rl.fixedWindowLimit s t
        ("ratelimit:" ++ rl.keyNamespace ++ ":" ++ identifier)) ∧
    (∀ k, k ≠ "ratelimit:" ++ rl.keyNamespace ++ ":" ++ identifier →
      ((rl.fixedWindowLimit s t
          ("ratelimit:" ++ rl.keyNamespace ++ ":" ++ identifier)).2).keyspace k =
        s.keyspace k) ∧
    rl.reset s t identifier =
      .ok (decide (0 < (s.del t
             ("ratelimit:" ++ rl.keyNamespace ++ ":" ++ identifier)).2),
           (s.del t ("ratelimit:" ++ rl.keyNamespace ++ ":" ++ identifier)).1) ∧
    (∀ k, k ≠ "ratelimit:" ++ rl.keyNamespace ++ ":" ++ identifier →
      ((s.del t ("ratelimit:" ++ rl.keyNamespace ++ ":" ++ identifier)).1).keyspace k =
        s.keyspace k) ∧
    (∀ s2 : Store, isRedisAvailable s2 = true →
      s2.get t ("ratelimit:" ++ rl.keyNamespace ++ ":" ++ identifier) =
        s.get t ("ratelimit:" ++ rl.keyNamespace ++ ":" ++ identifier) →
      s2.ttl t ("ratelimit:" ++ rl.keyNamespace ++ ":" ++ identifier) =
        s.ttl t ("ratelimit:" ++ rl.keyNamespace ++ ":" ++ identifier) →
      (rl.getStatus s2 t identifier).map Prod.fst =
        (rl.getStatus s t identifier).map Prod.fst) := by
  have hkeq : rl.buildKey identifier =
      "ratelimit:" ++ rl.keyNamespace ++ ":" ++ identifier := rfl
  refine ⟨hkeq, ?_, ?_, ?_, ?_, ?_⟩
  · rw [rl.limit_ok s t identifier h1 h2, hkeq]
  · intro k hk
    exact rl.fixedWindowLimit_snd_keyspace s t _ k hk
  · rw [rl.reset_ok s t identifier h1 h2, hkeq]
  · intro k hk
    exact Store.del_fst_keyspace s t _ k hk
  · intro s2 ha2 hg ht'
    rw [← hkeq] at hg ht'
    simp only [RateLimiter.getStatus, if_neg h1, h2, ha2, Bool.not_true,
      Bool.false_eq_true, if_false]
    rw [hg, ht']
    rfl

/-- C1 witness: the amended key-format theorem at a concrete limiter and
identifier. -/
theorem c1_key_format_witness :
    rlEx.buildKey "user-123" = "ratelimit:" ++ rlEx.keyNamespace ++ ":" ++ "user-123" :=
  (c1_key_format rlEx emptyStore 0 "user-123" (by decide) rfl).1

/-- C2: starting from a state with no live counter for the identifier and
running N sequential check calls whose instants all fall before the
window's expiry, the observed `currentCount` values are `1, …, N` in order
(`List.range' 1 N` is the list `[1, …, N]`), so the Nth call observes N;
and the Nth call's admission flag is `N ≤ quota`, so with quota Q calls
1..Q are allowed and the (Q+1)th and all later calls in the window are
not. -/
theorem c2_monotonic_counting (rl : RateLimiter) (s : Store) (t0 : Nat)
    (ts : List Nat) (identifier : String) (hw : 0 < rl.window)
    (h0 : s.lookupLive t0 (rl.buildKey identifier) = none)
    (hts : ∀ τ ∈ ts, τ < t0 + rl.window.toNat * 1000) :
    (rl.runLimits (rl.buildKey identifier) s (t0 :: ts)).1.map Prod.fst =
      List.range' 1 (ts.length + 1) ∧
    (rl.runLimits (rl.buildKey identifier) s (t0 :: ts)).1.map
        (fun p => p.2.allowed) =
      (List.range' 1 (ts.length + 1)).map
        (fun m : Nat => decide ((m : Int) ≤ rl.requestLimit)) := by
  obtain ⟨hc, -, hres, hkey⟩ :=
    rl.fixedWindowLimit_fresh s t0 (rl.buildKey identifier) h0 hw
  obtain ⟨r1, r2, -⟩ := rl.runLimits_live (rl.buildKey identifier) ts
    (rl.fixedWindowLimit s t0 (rl.buildKey identifier)).2 1
    (t0 + rl.window.toNat * 1000) hkey hts
  constructor
  · rw [RateLimiter.runLimits_cons]
    simp only [List.map_cons, hc, r1, List.range'_succ]
  · rw [RateLimiter.runLimits_cons]
    simp only [List.map_cons, hres, RateLimiter.windowResult_allowed, r2,
      List.range'_succ]

/-- C2 witness: quota 2, three sequential calls in one window — counts
1, 2, 3 and admissions true, true, false. -/
theorem c2_monotonic_counting_witness :
    (rlEx.runLimits (rlEx.buildKey "user-123") emptyStore [0, 1000, 2000]).1.map
        Prod.fst = [1, 2, 3] ∧
    (rlEx.runLimits (rlEx.buildKey "user-123") emptyStore [0, 1000, 2000]).1.map
        (fun p => p.2.allowed) = [true, true, false] := by
  obtain ⟨h1, h2⟩ := c2_monotonic_counting rlEx emptyStore 0 [1000, 2000] "user-123"
    (by decide) rfl (by decide)
  constructor
  · rw [h1]; decide
  · rw [h2]; decide

/-- C3: every successful check (limit) result has
`remaining = max 0 (quota - currentCount)` and
`allowed = (currentCount ≤ quota)`, hence `remaining ≥ 0` even when the
count exceeds the quota, and `remaining ≤ limit`. -/
theorem c3_remaining_allowed (rl : RateLimiter) (s : Store) (t : Nat)
    (identifier : String) (hQ : 0 < rl.requestLimit)
    (h1 : jsTrim identifier ≠ "") (h2 : isRedisAvailable s = true) :
    ∃ r s', rl.limit s t identifier = .ok (r, s') ∧
      r.remaining =
        max 0 (rl.requestLimit -
          (rl.observedCount s t (rl.buildKey identifier) : Int)) ∧
      r.allowed =
        decide ((rl.observedCount s t (rl.buildKey identifier) : Int) ≤
          rl.requestLimit) ∧
      0 ≤ r.remaining ∧ r.remaining ≤ r.limit := by
  rw [rl.limit_ok s t identifier h1 h2, rl.fixedWindowLimit_eq]
  refine ⟨_, _, rfl, RateLimiter.windowResult_remaining _ _ _ _,
    RateLimiter.windowResult_allowed _ _ _ _, ?_, ?_⟩
  · rw [RateLimiter.windowResult_remaining]
    omega
  · rw [RateLimiter.windowResult_remaining, RateLimiter.windowResult_limit]
    omega

/-- C3 witness: the remaining/allowed relation at a concrete call. -/
theorem c3_remaining_allowed_witness :
    ∃ r s', rlEx.limit emptyStore 0 "user-123" = .ok (r, s') ∧
      r.remaining =
        max 0 (rlEx.requestLimit -
          (rlEx.observedCount emptyStore 0 (rlEx.buildKey "user-123") : Int)) ∧
      r.allowed =
        decide ((rlEx.observedCount emptyStore 0 (rlEx.buildKey "user-123") : Int) ≤
          rlEx.requestLimit) ∧
      0 ≤ r.remaining ∧ r.remaining ≤ r.limit :=
  c3_remaining_allowed rlEx emptyStore 0 "user-123" (by decide) (by decide) rfl

/-- C4 counterexample: a successful check against a counter key that has no
expiry (the state the spec itself describes as a race with store-side
expiry) returns `ttl = 60` — the configured window — while the store's TTL
query at call time reported `-1`, so the returned ttl field does not equal
the store-reported TTL. -/
theorem c4_ttl_field_counterexample :
    (rlEx.limit noExpiryStore 0 "user-123").map (fun p => p.1.ttl) = .ok 60 ∧
    rlEx.ttlReport noExpiryStore 0 (rlEx.buildKey "user-123") = -1 ∧
    (60 : Int) ≠ -1 := ⟨rfl, rfl, by decide⟩

/-- C4 (amended): for every successful check (limit) call, the ttl field of
the result equals the store-reported TTL when that report is positive, and
the configured window length otherwise. -/
theorem c4_ttl_field (rl : RateLimiter) (s : Store) (t : Nat)
    (identifier : String) (h1 : jsTrim identifier ≠ "")
    (h2 : isRedisAvailable s = true) :
    ∃ r s', rl.limit s t identifier = .ok (r, s') ∧
      r.ttl = if 0 < rl.ttlReport s t (rl.buildKey identifier)
              then rl.ttlReport s t (rl.buildKey identifier) else rl.window := by
  rw [rl.limit_ok s t identifier h1 h2, rl.fixedWindowLimit_eq]
  exact ⟨_, _, rfl, RateLimiter.windowResult_ttl _ _ _ _⟩

/-- C4 witness: the amended ttl-field relation at a concrete call. -/
theorem c4_ttl_field_witness :
    ∃ r s', rlEx.limit emptyStore 0 "user-123" = .ok (r, s') ∧
      r.ttl = if 0 < rlEx.ttlReport emptyStore 0 (rlEx.buildKey "user-123")
              then rlEx.ttlReport emptyStore 0 (rlEx.buildKey "user-123")
              else rlEx.window :=
  c4_ttl_field rlEx emptyStore 0 "user-123" (by decide) rfl

/-- C5: for every successful check (limit) call, the reset field equals
`now + ttl` when the store-reported TTL is positive and
`now + windowSeconds` otherwise, where `now` is the wall clock read at the
start of the call, expressed in whole seconds (`(t + 999) / 1000` is the
ceiling of the millisecond clock `t` to seconds, matching the source's
`Math.ceil(resetTime / 1000)`). -/
theorem c5_reset_time (rl : RateLimiter) (s : Store) (t : Nat)
    (identifier : String) (h1 : jsTrim identifier ≠ "")
    (h2 : isRedisAvailable s = true) :
    ∃ r s', rl.limit s t identifier = .ok (r, s') ∧
      r.reset = (t + 999) / 1000 +
        (if 0 < rl.ttlReport s t (rl.buildKey identifier)
         then (rl.ttlReport s t (rl.buildKey identifier)).toNat
         else rl.window.toNat) := by
  rw [rl.limit_ok s t identifier h1 h2, rl.fixedWindowLimit_eq]
  refine ⟨_, _, rfl, ?_⟩
  rw [RateLimiter.windowResult_reset]
  by_cases hp : 0 < rl.ttlReport s t (rl.buildKey identifier)
  · rw [if_pos hp, if_pos hp]
    omega
  · rw [if_neg hp, if_neg hp]
    omega

/-- C5 witness: the reset-field relation at a concrete call. -/
theorem c5_reset_time_witness :
    ∃ r s', rlEx.limit emptyStore 500 "user-123" = .ok (r, s') ∧
      r.reset = (500 + 999) / 1000 +
        (if 0 < rlEx.ttlReport emptyStore 500 (rlEx.buildKey "user-123")
         then (rlEx.ttlReport emptyStore 500 (rlEx.buildKey "user-123")).toNat
         else rlEx.window.toNat) :=
  c5_reset_time rlEx emptyStore 500 "user-123" (by decide) rfl

/-- C6: limit, reset and status each reject a blank identifier with the
invalid-argument error, reject an unavailable store with the
store-unavailable error (the identifier check coming first), both before
any store round-trip, and raise neither error when the identifier is
non-blank and the store is available. -/
theorem c6_preconditions (rl : RateLimiter) (s : Store) (t : Nat)
    (identifier : String) :
    (jsTrim identifier = "" →
      rl.limit s t identifier = .error "Identifier cannot be empty" ∧
      rl.reset s t identifier = .error "Identifier cannot be empty" ∧
      rl.getStatus s t identifier = .error "Identifier cannot be empty") ∧
    (jsTrim identifier ≠ "" → isRedisAvailable s = false →
      rl.limit s t identifier = .error "Redis client is not available" ∧
      rl.reset s t identifier = .error "Redis client is not available" ∧
      rl.getStatus s t identifier = .error "Redis client is not available") ∧
    (jsTrim identifier ≠ "" → isRedisAvailable s = true →
      (rl.limit s t identifier).isOk = true ∧
      (rl.reset s t identifier).isOk = true ∧
      (rl.getStatus s t identifier).isOk = true) := by
  refine ⟨?_, ?_, ?_⟩
  · intro h
    refine ⟨?_, ?_, ?_⟩ <;>
      simp [RateLimiter.limit, RateLimiter.reset, RateLimiter.getStatus, h]
  · intro h1 h2
    refine ⟨?_, ?_, ?_⟩ <;>
      simp [RateLimiter.limit, RateLimiter.reset, RateLimiter.getStatus,
        if_neg h1, h2]
  · intro h1 h2
    refine ⟨?_, ?_, ?_⟩
    · rw [rl.limit_ok s t identifier h1 h2]; rfl
    · rw [rl.reset_ok s t identifier h1 h2]; rfl
    · simp only [RateLimiter.getStatus, if_neg h1, h2, Bool.not_true,
        Bool.false_eq_true, if_false]
      rfl

/-- C6 witness: the three precondition cases at concrete inputs. -/
theorem c6_preconditions_witness :
    rlEx.limit emptyStore 0 "  " = .error "Identifier cannot be empty" ∧
    rlEx.reset downStore 0 "user-123" = .error "Redis client is not available" ∧
    (rlEx.getStatus emptyStore 0 "user-123").isOk = true :=
  ⟨((c6_preconditions rlEx emptyStore 0 "  ").1 (by decide)).1,
   ((c6_preconditions rlEx downStore 0 "user-123").2.1 (by decide) rfl).2.1,
   ((c6_preconditions rlEx emptyStore 0 "user-123").2.2 (by decide) rfl).2.2⟩

/-- C7: with a store client supplied, construction succeeds exactly when
the quota is positive, the window is positive, and the namespace is
present and does not trim to the empty string — equivalently, it fails
exactly when one of those conditions is violated. -/
theorem c7_construction (config : RateLimiterConfig)
    (hred : config.redisPresent = true) :
    (RateLimiter.create config).isOk = true ↔
      ¬(config.limit ≤ 0 ∨ config.window ≤ 0 ∨
        config.keyNamespace = none ∨
        jsTrim (config.keyNamespace.getD "") = "") := by
  have hnone : config.keyNamespace = none →
      jsTrim (config.keyNamespace.getD "") = "" := by
    intro h; rw [h]; rfl
  unfold RateLimiter.create validateConfig
  rw [hred]
  simp only [Bool.not_true, Bool.false_eq_true, if_false]
  split_ifs with hL hW hK
  · simp [Except.isOk, Except.toBool, hL]
  · simp [Except.isOk, Except.toBool, hW]
  · simp [Except.isOk, Except.toBool, hK]
  · simp only [Except.isOk]
    constructor
    · intro _
      push_neg
      exact ⟨by omega, by omega, fun hn => hK (hnone hn), hK⟩
    · intro _
      rfl

/-- C7 witness: a valid configuration constructs successfully. -/
theorem c7_construction_witness : (RateLimiter.create cfgEx).isOk = true :=
  (c7_construction cfgEx rfl).mpr (by decide)

/-- C8: reset deletes the identifier's key and returns true exactly when a
live key existed; afterwards no live key remains, and a second reset at
any later instant returns false — in particular, for an identifier with no
active window both of two consecutive resets return false. -/
theorem c8_reset_semantics (rl : RateLimiter) (s : Store) (t t' : Nat)
    (identifier : String) (h1 : jsTrim identifier ≠ "")
    (h2 : isRedisAvailable s = true) (htt : t ≤ t') :
    ∃ b s', rl.reset s t identifier = .ok (b, s') ∧
      (b = true ↔ (s.lookupLive t (rl.buildKey identifier)).isSome = true) ∧
      s'.lookupLive t (rl.buildKey identifier) = none ∧
      rl.reset s' t' identifier = .ok (false, s') := by
  rw [rl.reset_ok s t identifier h1 h2]
  rcases hl : s.lookupLive t (rl.buildKey identifier) with _ | e
  · have hdel : s.del t (rl.buildKey identifier) = (s, 0) := by
      unfold Store.del; rw [hl]
    rw [hdel]
    have hl' : s.lookupLive t' (rl.buildKey identifier) = none :=
      Store.lookupLive_none_mono s t t' _ hl htt
    have hdel' : s.del t' (rl.buildKey identifier) = (s, 0) := by
      unfold Store.del; rw [hl']
    refine ⟨false, s, rfl, by simp, hl, ?_⟩
    rw [rl.reset_ok s t' identifier h1 h2, hdel']
    rfl
  · have hdel : s.del t (rl.buildKey identifier) =
        (s.delEntry (rl.buildKey identifier), 1) := by
      unfold Store.del; rw [hl]
    rw [hdel]
    have hks : (s.delEntry (rl.buildKey identifier)).keyspace
        (rl.buildKey identifier) = none := by
      rw [Store.keyspace_delEntry]; simp
    have hl2 : ∀ τ, (s.delEntry (rl.buildKey identifier)).lookupLive τ
        (rl.buildKey identifier) = none :=
      fun τ => Store.lookupLive_of_keyspace_none _ τ _ hks
    have h2' : isRedisAvailable (s.delEntry (rl.buildKey identifier)) = true := by
      rw [isRedisAvailable_delEntry]; exact h2
    have hdel' : (s.delEntry (rl.buildKey identifier)).del t'
        (rl.buildKey identifier) = (s.delEntry (rl.buildKey identifier), 0) := by
      unfold Store.del; rw [hl2 t']
    refine ⟨true, s.delEntry (rl.buildKey identifier), rfl, by simp, hl2 t, ?_⟩
    rw [rl.reset_ok _ t' identifier h1 h2', hdel']
    rfl

/-- C8 witness: resetting a live counter returns true, and the immediately
following reset returns false. -/
theorem c8_reset_semantics_witness :
    ∃ b s', rlEx.reset liveStore 0 "user-123" = .ok (b, s') ∧
      (b = true ↔ (liveStore.lookupLive 0 (rlEx.buildKey "user-123")).isSome = true) ∧
      s'.lookupLive 0 (rlEx.buildKey "user-123") = none ∧
      rlEx.reset s' 1 "user-123" = .ok (false, s') :=
  c8_reset_semantics rlEx liveStore 0 1 "user-123" (by decide) rfl (by decide)

/-- C9 counterexample: against a store holding a live counter for the
identifier with 400 milliseconds left — the TTL query reports `0`, which
is neither negative nor absent — status returns `none` even though a
window is active, so "None exactly when the key is absent or the TTL is
negative/absent" fails. -/
theorem c9_status_counterexample :
    (rlEx.getStatus shortTtlStore 1000 "user-123").map Prod.fst = .ok none ∧
    shortTtlStore.get 1000 (rlEx.buildKey "user-123") = some 3 ∧
    shortTtlStore.ttl 1000 (rlEx.buildKey "user-123") = 0 ∧
    ¬shortTtlStore.ttl 1000 (rlEx.buildKey "user-123") < 0 :=
  ⟨rfl, rfl, rfl, by decide⟩

theorem statusView_eq_none_iff (cv : Option Nat) (ttl0 : Int) :
    statusView cv ttl0 = none ↔ (cv = none ∨ ttl0 ≤ 0) := by
  rcases cv with _ | v
  · simp [statusView]
  · simp only [statusView]
    by_cases h0 : ttl0 = 0
    · simp [h0]
    · rw [if_neg h0]
      by_cases hneg : ttl0 < 0
      · rw [if_pos hneg]
        simp only [true_iff]
        right; omega
      · rw [if_neg hneg]
        constructor
        · intro h; exact absurd h (by simp)
        · rintro (h | h)
          · exact absurd h (by simp)
          · omega

theorem statusView_eq_some (cv : Option Nat) (ttl0 : Int) (v : Nat) (ttlv : Int)
    (h : statusView cv ttl0 = some (v, ttlv)) :
    cv = some v ∧ ttl0 = ttlv ∧ 0 < ttlv := by
  rcases cv with _ | v'
  · exact absurd h (by simp [statusView])
  · simp only [statusView] at h
    by_cases h0 : ttl0 = 0
    · rw [if_pos h0] at h
      simp at h
    · rw [if_neg h0] at h
      by_cases hneg : ttl0 < 0
      · rw [if_pos hneg] at h
        exact absurd h (by simp)
      · rw [if_neg hneg] at h
        simp only [Option.some.injEq, Prod.mk.injEq] at h
        obtain ⟨hv, ht⟩ := h
        exact ⟨by rw [hv], ht, by omega⟩

/-- C9 (amended): status mutates nothing and returns None exactly when the
key's value is absent or the store-reported TTL is non-positive (zero,
negative, or the absent/no-expiry sentinels); otherwise it returns the
stored count together with the (positive) reported TTL. -/
theorem c9_status_semantics (rl : RateLimiter) (s : Store) (t : Nat)
    (identifier : String) (h1 : jsTrim identifier ≠ "")
    (h2 : isRedisAvailable s = true) :
    ∃ res, rl.getStatus s t identifier = .ok (res, s) ∧
      (res = none ↔ (s.get t (rl.buildKey identifier) = none ∨
        s.ttl t (rl.buildKey identifier) ≤ 0)) ∧
      (∀ v ttlv, res = some (v, ttlv) →
        s.get t (rl.buildKey identifier) = some v ∧
        s.ttl t (rl.buildKey identifier) = ttlv ∧ 0 < ttlv) := by
  refine ⟨statusView (s.get t (rl.buildKey identifier))
    (s.ttl t (rl.buildKey identifier)), ?_, ?_, ?_⟩
  · simp only [RateLimiter.getStatus, if_neg h1, h2, Bool.not_true,
      Bool.false_eq_true, if_false]
  · exact statusView_eq_none_iff _ _
  · intro v ttlv h
    exact statusView_eq_some _ _ v ttlv h

/-- C9 witness: the amended status semantics at a live counter with a full
minute left — status reports the count 2 with TTL 60. -/
theorem c9_status_semantics_witness :
    ∃ res, rlEx.getStatus liveStore 0 "user-123" = .ok (res, liveStore) ∧
      (res = none ↔ (liveStore.get 0 (rlEx.buildKey "user-123") = none ∨
        liveStore.ttl 0 (rlEx.buildKey "user-123") ≤ 0)) ∧
      (∀ v ttlv, res = some (v, ttlv) →
        liveStore.get 0 (rlEx.buildKey "user-123") = some v ∧
        liveStore.ttl 0 (rlEx.buildKey "user-123") = ttlv ∧ 0 < ttlv) :=
  c9_status_semantics rlEx liveStore 0 "user-123" (by decide) rfl

/-- C10: every successful check (limit) call returns a strictly positive
ttl field: when the store reports a non-positive TTL the configured
window length — positive by the construction invariant — is substituted. -/
theorem c10_ttl_positive (rl : RateLimiter) (s : Store) (t : Nat)
    (identifier : String) (hw : 0 < rl.window)
    (h1 : jsTrim identifier ≠ "") (h2 : isRedisAvailable s = true) :
    ∃ r s', rl.limit s t identifier = .ok (r, s') ∧ 0 < r.ttl := by
  rw [rl.limit_ok s t identifier h1 h2, rl.fixedWindowLimit_eq]
  refine ⟨_, _, rfl, ?_⟩
  rw [RateLimiter.windowResult_ttl]
  split <;> omega

/-- C10 witness: a call against a no-expiry counter still returns a
positive ttl field. -/
theorem c10_ttl_positive_witness :
    ∃ r s', rlEx.limit noExpiryStore 0 "user-123" = .ok (r, s') ∧ 0 < r.ttl :=
  c10_ttl_positive rlEx noExpiryStore 0 "user-123" (by decide) (by decide) rfl

end PeriodicTitanium
